import Mathlib

/-!
Shallow embedding of `notebook/services/beakerlab/handlers.py`.

The module defines three Tornado handlers plus two helpers:

* `sort_key(model)` — case-insensitive sort key over a model's name and type;
* `validate_model(model, expect_content)` — shape check on content models;
* `BeakerLabContentsHandler.put` — upsert of content at a path;
* `BeakerLabSessionHandler.delete` — teardown of the session bound to a path,
  cascading to conditional content deletion;
* `BeakerLabStatusHandler.get` — liveness echo (no claims attach to it).

Python dictionaries are embedded as association lists.  Atomic JSON values
(the only values the handlers inspect: null tests, truthiness of the
`copy_from` entry, string comparison of names, types and paths) are the
inductive `JValue`.  Session records are traversed dynamically through
nested dictionaries, so they are embedded as the self-nested tree `JTree`
whose dictionary nodes are spelled out AssocList-style (`dnil` / `dcons`)
to keep equality decidable.  Exceptions are `Except`; the external
collaborators (contents manager, session manager) are function records,
and each handler returns its HTTP outcome together with the ordered trace
of collaborator calls and log lines it produced.
-/

set_option autoImplicit false

namespace BeakerLab

/-- Atomic JSON values as inspected by the handlers. -/
inductive JValue where
  | null
  | bool (b : Bool)
  | str (s : String)
  | num (n : Int)
  deriving DecidableEq, Repr

/-- A content model: the Python dict passed to `validate_model`, `sort_key`
and the contents-manager calls, as an association list. -/
abbrev Model := List (String × JValue)

/-- First-match lookup in an association list (Python dict keys are unique,
so first match is the match). -/
def dictLookup (m : Model) (k : String) : Option JValue :=
  match m with
  | [] => none
  | (k', v) :: rest => if k' = k then some v else dictLookup rest k

/-- Python `k in model.keys()`. -/
def hasKey (m : Model) (k : String) : Bool :=
  (dictLookup m k).isSome

/-- Python `model.get(k, d)`. -/
def dictGetD (m : Model) (k : String) (d : JValue) : JValue :=
  (dictLookup m k).getD d

/-- Python truthiness of an atomic JSON value. -/
def truthy : JValue → Bool
  | .null => false
  | .bool b => b
  | .str s => s ≠ ""
  | .num n => n ≠ 0

/-- Python `v is None`. -/
def isNull : JValue → Bool
  | .null => true
  | _ => false

/-- String payload of a JSON value, defaulting to `""`. -/
def jStrD : JValue → String
  | .str s => s
  | _ => ""

/-! ## `sort_key` -/

/-- The `type_key` dispatch inside `sort_key`: the dict
`{'directory': '0', 'notebook': '1', 'file': '2'}.get(model['type'], '9')`. -/
def type_rank : JValue → String
  | .str "directory" => "0"
  | .str "notebook" => "1"
  | .str "file" => "2"
  | _ => "9"

/-- Python exceptions distinguished by the handlers. -/
inductive PyErr where
  | keyError (k : String)
  | typeError
  deriving DecidableEq, Repr

/-- Python `model[k]`: `KeyError` when the key is absent. -/
def getItemModel (m : Model) (k : String) : Except PyErr JValue :=
  match dictLookup m k with
  | some v => .ok v
  | none => .error (.keyError k)

/-- Python `str.lower()` (ASCII case folding, as used by the handler's
ASCII file names). -/
def pyLower (s : String) : String :=
  (s.toList.map Char.toLower).asString

/-- `sort_key(model)`: `type_key + model['name'].lower()`.  `KeyError`
when `name` or `type` is absent, `TypeError` when the name is not a
string (Python would fail the `.lower()` attribute access). -/
def sort_key (model : Model) : Except PyErr String := do
  let nameV ← getItemModel model "name"
  match nameV with
  | .str s =>
    let typeV ← getItemModel model "type"
    pure (type_rank typeV ++ pyLower s)
  | _ => .error .typeError

/-- Python string `<` on the sort keys: lexicographic by code point. -/
def strLtb : List Char → List Char → Bool
  | [], [] => false
  | [], _ :: _ => true
  | _ :: _, [] => false
  | a :: as, b :: bs =>
    if a.toNat < b.toNat then true
    else if b.toNat < a.toNat then false
    else strLtb as bs

/-- `a <= b` on sort keys (keys that failed to compute compare as equal,
matching that Python `sorted` would instead have raised). -/
def key_le (a b : Model) : Bool :=
  match sort_key a, sort_key b with
  | .ok ka, .ok kb => !(strLtb kb.toList ka.toList)
  | _, _ => true

/-- Stable insertion into a key-sorted list. -/
def insert_by_key (a : Model) : List Model → List Model
  | [] => [a]
  | b :: bs => if key_le a b then a :: b :: bs else b :: insert_by_key a bs

/-- Python `sorted(models, key=sort_key)` (stable sort by the key). -/
def sort_models : List Model → List Model
  | [] => []
  | a :: as => insert_by_key a (sort_models as)

/-! ## `validate_model` -/

/-- The `required_keys` set of `validate_model`. -/
def required_keys : List String :=
  ["name", "path", "type", "writable", "created", "last_modified",
   "mimetype", "content", "format"]

/-- The `maybe_none_keys` list of `validate_model`. -/
def maybe_none_keys : List String :=
  ["content", "format"]

/-- The three `web.HTTPError(500, ...)` shapes `validate_model` raises,
kept structured: the missing-key set, the unexpectedly-None keys, and the
unexpectedly-not-None keys with their values. -/
inductive ValidationError where
  | missingModelKeys (missing : List String)
  | keysUnexpectedlyNone (keys : List String)
  | keysUnexpectedlyNotNone (errors : List (String × JValue))
  deriving DecidableEq, Repr

/-- `validate_model(model, expect_content)`. -/
def validate_model (model : Model) (expect_content : Bool) :
    Except ValidationError Unit :=
  let missing := required_keys.filter (fun k => ! hasKey model k)
  if missing.isEmpty then
    if expect_content then
      let errors := maybe_none_keys.filter
        (fun k => isNull (dictGetD model k .null))
      if errors.isEmpty then .ok ()
      else .error (.keysUnexpectedlyNone errors)
    else
      let errors := maybe_none_keys.filterMap (fun k =>
        match dictLookup model k with
        | some v => if isNull v then none else some (k, v)
        | none => none)
      if errors.isEmpty then .ok ()
      else .error (.keysUnexpectedlyNotNone errors)
  else .error (.missingModelKeys missing)

/-! ## `BeakerLabContentsHandler.put` -/

/-- The contents-manager collaborator used by `put`: `file_exists`,
`new` (create) and `save` (update), each returning the resulting model. -/
structure ContentsManager where
  file_exists : String → Bool
  new : Model → String → Model
  save : Model → String → Model

/-- One call made by `put` against the contents manager, in order. -/
inductive PutCall where
  | file_exists_query (path : String)
  | new_call (body : Model) (path : String)
  | save_call (body : Model) (path : String)
  deriving DecidableEq, Repr

/-- Modelled from the spec: `location_url` delegates to `url_path_join`
and `url_escape` from `notebook.utils`, which are outside the provided
source; the spec calls the result "the canonical API URL for `path`",
embedded here as the joined URL with the path taken verbatim. -/
def location_url (base_url : String) (path : String) : String :=
  base_url ++ "/api/contents/" ++ path

/-- Outcome of a `put` request: an `HTTPError` raised by the handler
body, a validation failure on the returned model (raised as a 500), or a
finished response carrying the status, the `Location` header, the
`Last-Modified` header and the JSON-rendered model. -/
inductive PutResult where
  | httpError (status : Nat) (msg : String)
  | modelInvalid (e : ValidationError)
  | finished (status : Nat) (location : String) (lastModified : JValue)
      (body : Model)
  deriving DecidableEq, Repr

namespace BeakerLabContentsHandler

/-- `BeakerLabContentsHandler.put(path)` with JSON body `body`
(`none` when `get_json_body` returned `None`), returning the outcome and
the ordered trace of contents-manager calls.  Mirrors `put` together
with its `_save` / `_upload` / `_finish_model` continuations. -/
def put (cm : ContentsManager) (base_url : String) (path : String)
    (body : Option Model) : PutResult × List PutCall :=
  match body with
  | none => (.httpError 500 "Cannot load an empty notebook", [])
  | some model =>
    if model.isEmpty then
      (.httpError 500 "Cannot load an empty notebook", [])
    else if truthy (dictGetD model "copy_from" .null) then
      (.httpError 403 "Copying not supported", [])
    else if cm.file_exists path then
      let m := cm.save model path
      match validate_model m false with
      | .error e =>
        (.modelInvalid e, [.file_exists_query path, .save_call model path])
      | .ok _ =>
        (.finished 200 (location_url base_url (jStrD (dictGetD m "path" .null)))
           (dictGetD m "last_modified" .null) m,
         [.file_exists_query path, .save_call model path])
    else
      let m := cm.new model path
      match validate_model m false with
      | .error e =>
        (.modelInvalid e, [.file_exists_query path, .new_call model path])
      | .ok _ =>
        (.finished 201 (location_url base_url (jStrD (dictGetD m "path" .null)))
           (dictGetD m "last_modified" .null) m,
         [.file_exists_query path, .new_call model path])

end BeakerLabContentsHandler

/-! ## `BeakerLabSessionHandler.delete` -/

/-- A session record as traversed by `_get_from_dict`: either an atomic
value or a dictionary, with dictionary nodes written out AssocList-style
(`dnil` / `dcons key value tail`) so the inductive is not nested. -/
inductive JTree where
  | atom (v : JValue)
  | dnil
  | dcons (key : String) (val : JTree) (tail : JTree)
  deriving DecidableEq, Repr

/-- Lookup along a `dcons` chain. -/
def treeLookup (k : String) : JTree → Option JTree
  | .dcons k' v t => if k' = k then some v else treeLookup k t
  | _ => none

/-- Python `d[k]` on a session record: `TypeError` when `d` is not a
dictionary, `KeyError` when the key is absent. -/
def getItemTree (d : JTree) (k : String) : Except PyErr JTree :=
  match d with
  | .atom _ => .error .typeError
  | _ =>
    match treeLookup k d with
    | some v => .ok v
    | none => .error (.keyError k)

/-- `BeakerLabSessionHandler._get_from_dict(dict, key_path)`:
`reduce(lambda d, k: d[k], key_path, dict)`. -/
def get_from_dict (d : JTree) (key_path : List String) : Except PyErr JTree :=
  key_path.foldlM getItemTree d

/-- The `key_path` used by `delete`. -/
def nbKeyPath : List String := ["notebook", "path"]

/-- Python `path.strip('/')`: drop leading and trailing slash characters. -/
def stripSlashes (s : String) : String :=
  (((s.toList.dropWhile (fun c => c = '/')).reverse.dropWhile
      (fun c => c = '/')).reverse).asString

/-- Python `nb_path == nb_name` where `nb_name` is a string: true exactly
when the extracted value is that string. -/
def treeEqStr (v : JTree) (s : String) : Bool :=
  match v with
  | .atom (.str t) => t = s
  | _ => false

/-- One iteration of the session loop in `delete`: extract
`session['notebook']['path']`, and on a match overwrite the accumulated
`session_id` with `session['id']` (so a later match wins). -/
def sessionStep (nb_name : String) (acc : Option JTree) (session : JTree) :
    Except PyErr (Option JTree) := do
  let nb_path ← get_from_dict session nbKeyPath
  if treeEqStr nb_path nb_name then
    do
      let i ← getItemTree session "id"
      pure (some i)
  else
    pure acc

/-- The whole session loop of `delete`: fold `sessionStep` over the
listed sessions starting from `session_id = None`. -/
def find_session_id (sessions : List JTree) (nb_name : String) :
    Except PyErr (Option JTree) :=
  sessions.foldlM (sessionStep nb_name) none

/-- The collaborators `delete` consults: whether
`session_manager.delete_session(id)` raises `KeyError` (the kernel is
already gone), and `contents_manager.file_exists(path)`.  The session
and content deletions themselves return nothing and are recorded in the
event trace. -/
structure SessionEnv where
  delete_session_fails : JTree → Bool
  file_exists : String → Bool

/-- One observable effect of `delete`, in order: the session deletion
call, the content existence query, the two warning log lines, and the
content deletion call. -/
inductive TeardownEvent where
  | session_delete (session_id : JTree)
  | content_exists_query (path : String)
  | warn_deleting (path : String)
  | content_delete (path : String)
  | warn_not_exists (path : String)
  deriving DecidableEq, Repr

/-- Outcome of a `delete` request: the 204 `finish()` with empty body, an
`HTTPError` raised by the handler (the 410), or an exception escaping the
handler body and surfaced by the framework as a generic server error. -/
inductive TeardownResult where
  | noContent204
  | httpError (status : Nat) (msg : String)
  | serverError (e : PyErr)
  deriving DecidableEq, Repr

namespace BeakerLabSessionHandler

/-- `BeakerLabSessionHandler.delete(path)`: normalize the path, run the
session loop, and if a session was selected delete it inside the
`try/except KeyError` block, then conditionally delete the content;
returns the outcome and the ordered trace of effects. -/
def delete (env : SessionEnv) (sessions : List JTree) (path : String) :
    TeardownResult × List TeardownEvent :=
  let nb_name := stripSlashes path
  match find_session_id sessions nb_name with
  | .error e => (.serverError e, [])
  | .ok none => (.noContent204, [])
  | .ok (some sid) =>
    if env.delete_session_fails sid then
      (.httpError 410 "Kernel deleted before session", [.session_delete sid])
    else if env.file_exists path then
      (.noContent204,
       [.session_delete sid, .content_exists_query path,
        .warn_deleting path, .content_delete path])
    else
      (.noContent204,
       [.session_delete sid, .content_exists_query path,
        .warn_not_exists path])

end BeakerLabSessionHandler

/-! ## `BeakerLabStatusHandler.get` -/

namespace BeakerLabStatusHandler

/-- `BeakerLabStatusHandler.get(container_uuid)`: echo the identifier. -/
def get (container_uuid : String) : Nat × Model :=
  (200, [("container_uuid", .str container_uuid)])

end BeakerLabStatusHandler

/-! ## Concrete instances used to exercise the theorems -/

/-- A well-shaped content model: all eight required keys, `content` and
`format` null. -/
def demo_model : Model :=
  [("name", .str "a.ipynb"), ("path", .str "a.ipynb"), ("type", .str "notebook"),
   ("writable", .bool true), ("created", .str "t0"), ("last_modified", .str "t1"),
   ("mimetype", .null), ("content", .null), ("format", .null)]

/-- A contents manager over an empty store whose mutations return
`demo_model`. -/
def cm_demo : ContentsManager where
  file_exists := fun _ => false
  new := fun _ _ => demo_model
  save := fun _ _ => demo_model

/-- A body that declares `copy_from` with a null (falsy) value. -/
def copy_from_null_body : Model :=
  [("copy_from", JValue.null), ("content", JValue.str "x")]

/-- The three models of the spec's sorting example. -/
def model_file_B : Model := [("name", .str "B.txt"), ("type", .str "file")]

/-- Directory model named `a`. -/
def model_dir_a : Model := [("name", .str "a"), ("type", .str "directory")]

/-- Notebook model named `Z`. -/
def model_nb_Z : Model := [("name", .str "Z"), ("type", .str "notebook")]

/-- A session record bound to notebook path `nb` with id `s1`. -/
def session_demo : JTree :=
  .dcons "notebook" (.dcons "path" (.atom (.str "nb")) .dnil)
    (.dcons "id" (.atom (.str "s1")) .dnil)

/-- A second session record bound to the same path `nb`, id `s2`. -/
def session_demo2 : JTree :=
  .dcons "notebook" (.dcons "path" (.atom (.str "nb")) .dnil)
    (.dcons "id" (.atom (.str "s2")) .dnil)

/-- A malformed session record lacking the `notebook` key. -/
def session_no_nb : JTree := .dcons "id" (.atom (.str "s3")) .dnil

/-- Environment where every session deletion raises `KeyError`. -/
def env_kernel_gone : SessionEnv where
  delete_session_fails := fun _ => true
  file_exists := fun _ => false

/-- Environment where session deletion succeeds and the content exists. -/
def env_normal : SessionEnv where
  delete_session_fails := fun _ => false
  file_exists := fun _ => true

/-! ## Helper lemmas -/

theorem except_pure {ε α : Type} (a : α) : (pure a : Except ε α) = .ok a := rfl

theorem except_bind_ok {ε α β : Type} (a : α) (g : α → Except ε β) :
    (Except.ok a >>= g : Except ε β) = g a := rfl

theorem except_bind_error {ε α β : Type} (e : ε) (g : α → Except ε β) :
    ((Except.error e : Except ε α) >>= g) = .error e := rfl

theorem sessionStep_skip {nb_name : String} {acc : Option JTree} {s v : JTree}
    (h1 : get_from_dict s nbKeyPath = .ok v)
    (h2 : treeEqStr v nb_name = false) :
    sessionStep nb_name acc s = .ok acc := by
  simp [sessionStep, h1, except_bind_ok, h2, except_pure]

theorem sessionStep_hit {nb_name : String} {acc : Option JTree} {s v i : JTree}
    (h1 : get_from_dict s nbKeyPath = .ok v)
    (h2 : treeEqStr v nb_name = true)
    (h3 : getItemTree s "id" = .ok i) :
    sessionStep nb_name acc s = .ok (some i) := by
  simp [sessionStep, h1, except_bind_ok, h2, h3, except_pure]

theorem sessionStep_raises {nb_name : String} {acc : Option JTree} {s : JTree}
    {e : PyErr} (h1 : get_from_dict s nbKeyPath = .error e) :
    sessionStep nb_name acc s = .error e := by
  simp [sessionStep, h1, except_bind_error]

theorem foldl_sessions_skip_all {nb_name : String} {sessions : List JTree}
    (h : ∀ s ∈ sessions, ∃ v, get_from_dict s nbKeyPath = .ok v ∧
      treeEqStr v nb_name = false)
    (acc : Option JTree) :
    sessions.foldlM (sessionStep nb_name) acc = .ok acc := by
  induction sessions generalizing acc with
  | nil => rfl
  | cons s rest ih =>
    obtain ⟨v, h1, h2⟩ := h s (List.mem_cons_self s rest)
    rw [List.foldlM_cons, sessionStep_skip h1 h2, except_bind_ok]
    exact ih (fun t ht => h t (List.mem_cons_of_mem s ht)) acc

theorem foldl_sessions_total {nb_name : String} {sessions : List JTree}
    (h : ∀ s ∈ sessions, ∃ v, get_from_dict s nbKeyPath = .ok v ∧
      (treeEqStr v nb_name = true → ∃ i, getItemTree s "id" = .ok i))
    (acc : Option JTree) :
    ∃ acc2, sessions.foldlM (sessionStep nb_name) acc = .ok acc2 := by
  induction sessions generalizing acc with
  | nil => exact ⟨acc, rfl⟩
  | cons s rest ih =>
    obtain ⟨v, h1, h2⟩ := h s (List.mem_cons_self s rest)
    rw [List.foldlM_cons]
    cases hm : treeEqStr v nb_name with
    | false =>
      rw [sessionStep_skip h1 hm, except_bind_ok]
      exact ih (fun t ht => h t (List.mem_cons_of_mem s ht)) acc
    | true =>
      obtain ⟨i, h3⟩ := h2 hm
      rw [sessionStep_hit h1 hm h3, except_bind_ok]
      exact ih (fun t ht => h t (List.mem_cons_of_mem s ht)) (some i)

/-! ## Claims about `BeakerLabContentsHandler.put` -/

/-- Claim C3: for an upsert with a non-empty body whose `copy_from` entry
is not (truthily) set, `put` first queries existence of the path and then
makes exactly one store mutation — `save` (update, 200) when the path
exists, `new` (create, 201) when it does not — and when the returned
model passes `validate_model _ false`, the response carries the model,
the `Location` header built from the model's path and the
`Last-Modified` header taken from the model's timestamp. -/
theorem put_upsert_routing (cm : ContentsManager) (base_url path : String)
    (model : Model) (hne : model ≠ [])
    (hcf : truthy (dictGetD model "copy_from" .null) = false) :
    ((BeakerLabContentsHandler.put cm base_url path (some model)).2
       = [.file_exists_query path,
          if cm.file_exists path then .save_call model path
          else .new_call model path])
    ∧ (cm.file_exists path = true →
        validate_model (cm.save model path) false = .ok () →
        (BeakerLabContentsHandler.put cm base_url path (some model)).1
          = .finished 200
              (location_url base_url
                (jStrD (dictGetD (cm.save model path) "path" .null)))
              (dictGetD (cm.save model path) "last_modified" .null)
              (cm.save model path))
    ∧ (cm.file_exists path = false →
        validate_model (cm.new model path) false = .ok () →
        (BeakerLabContentsHandler.put cm base_url path (some model)).1
          = .finished 201
              (location_url base_url
                (jStrD (dictGetD (cm.new model path) "path" .null)))
              (dictGetD (cm.new model path) "last_modified" .null)
              (cm.new model path)) := by
  have hemp : model.isEmpty = false := by
    cases model with
    | nil => exact absurd rfl hne
    | cons p rest => rfl
  refine ⟨?_, ?_, ?_⟩
  · cases hfe : cm.file_exists path with
    | true =>
      cases hv : validate_model (cm.save model path) false with
      | error e => simp [BeakerLabContentsHandler.put, hemp, hcf, hfe, hv]
      | ok u => simp [BeakerLabContentsHandler.put, hemp, hcf, hfe, hv]
    | false =>
      cases hv : validate_model (cm.new model path) false with
      | error e => simp [BeakerLabContentsHandler.put, hemp, hcf, hfe, hv]
      | ok u => simp [BeakerLabContentsHandler.put, hemp, hcf, hfe, hv]
  · intro hfe hval
    simp [BeakerLabContentsHandler.put, hemp, hcf, hfe, hval]
  · intro hfe hval
    simp [BeakerLabContentsHandler.put, hemp, hcf, hfe, hval]

/-- Witness for C3 at a concrete store and body: the existence query is
followed by exactly one `new` call and the response is a 201 with the
`Location` and `Last-Modified` headers from the returned model. -/
theorem put_upsert_routing_witness :
    (BeakerLabContentsHandler.put cm_demo "" "a.ipynb"
        (some [("content", JValue.str "x")])).2
      = [.file_exists_query "a.ipynb",
         .new_call [("content", JValue.str "x")] "a.ipynb"]
    ∧ (BeakerLabContentsHandler.put cm_demo "" "a.ipynb"
        (some [("content", JValue.str "x")])).1
      = .finished 201 "/api/contents/a.ipynb" (.str "t1") demo_model := by
  have h := put_upsert_routing cm_demo "" "a.ipynb" [("content", JValue.str "x")]
    (by decide) rfl
  exact ⟨h.1, h.2.2 rfl rfl⟩

/-- Claim C5, counterexample: a body that declares `copy_from` (the key
is present) with a falsy value is not rejected — the handler performs the
existence query and a store mutation, and the result is not the
403 `HTTPError`.  This refutes the claim as stated. -/
theorem put_copy_from_declared_not_rejected :
    hasKey copy_from_null_body "copy_from" = true
    ∧ (BeakerLabContentsHandler.put cm_demo "" "a.ipynb"
        (some copy_from_null_body)).2 ≠ []
    ∧ (BeakerLabContentsHandler.put cm_demo "" "a.ipynb"
        (some copy_from_null_body)).1
        ≠ PutResult.httpError 403 "Copying not supported" := by
  have h : BeakerLabContentsHandler.put cm_demo "" "a.ipynb"
      (some copy_from_null_body)
      = (.finished 201 "/api/contents/a.ipynb" (.str "t1") demo_model,
         [.file_exists_query "a.ipynb",
          .new_call copy_from_null_body "a.ipynb"]) := rfl
  refine ⟨rfl, ?_, ?_⟩
  · rw [h]
    exact fun hc => List.noConfusion hc
  · rw [h]
    exact fun hc => PutResult.noConfusion hc

/-- Claim C5, amended: for every upsert whose body carries a truthy
`copy_from` entry, the request fails with the 403 `HTTPError` and no
contents-manager call is made. -/
theorem put_truthy_copy_from_rejected (cm : ContentsManager)
    (base_url path : String) (model : Model)
    (h : truthy (dictGetD model "copy_from" .null) = true) :
    BeakerLabContentsHandler.put cm base_url path (some model)
      = (.httpError 403 "Copying not supported", []) := by
  match model with
  | [] => simp [dictGetD, dictLookup, truthy] at h
  | p :: rest => simp [BeakerLabContentsHandler.put, h]

/-- Witness for the amended C5 at a concrete body. -/
theorem put_truthy_copy_from_rejected_witness :
    BeakerLabContentsHandler.put cm_demo "" "p"
        (some [("copy_from", JValue.str "src")])
      = (.httpError 403 "Copying not supported", []) :=
  put_truthy_copy_from_rejected cm_demo "" "p"
    [("copy_from", JValue.str "src")] rfl

/-- Claim C6: an upsert with an absent or empty body fails with the
500 `HTTPError` and makes no contents-manager call. -/
theorem put_empty_body (cm : ContentsManager) (base_url path : String) :
    BeakerLabContentsHandler.put cm base_url path none
      = (.httpError 500 "Cannot load an empty notebook", [])
    ∧ BeakerLabContentsHandler.put cm base_url path (some [])
      = (.httpError 500 "Cannot load an empty notebook", []) :=
  ⟨rfl, rfl⟩

/-! ## Claims about `BeakerLabSessionHandler.delete` -/

/-- Claim C1: when a session matches the normalized path and deleting it
raises `KeyError` (the kernel is already gone), the request fails with
the 410 `HTTPError` "Kernel deleted before session", and neither a
content deletion nor the content existence query that would lead to one
is ever performed. -/
theorem teardown_kernel_gone (env : SessionEnv) (sessions : List JTree)
    (path : String) (sid : JTree)
    (hfind : find_session_id sessions (stripSlashes path) = .ok (some sid))
    (hfail : env.delete_session_fails sid = true) :
    BeakerLabSessionHandler.delete env sessions path
      = (.httpError 410 "Kernel deleted before session", [.session_delete sid])
    ∧ (∀ p, TeardownEvent.content_delete p
        ∉ (BeakerLabSessionHandler.delete env sessions path).2)
    ∧ (∀ p, TeardownEvent.content_exists_query p
        ∉ (BeakerLabSessionHandler.delete env sessions path).2) := by
  have h : BeakerLabSessionHandler.delete env sessions path
      = (.httpError 410 "Kernel deleted before session",
         [.session_delete sid]) := by
    simp [BeakerLabSessionHandler.delete, hfind, hfail]
  refine ⟨h, ?_, ?_⟩ <;> intro p <;> rw [h] <;> simp

/-- Witness for C1: one matching session, kernel already gone. -/
theorem teardown_kernel_gone_witness :
    BeakerLabSessionHandler.delete env_kernel_gone [session_demo] "/nb/"
      = (.httpError 410 "Kernel deleted before session",
         [.session_delete (.atom (.str "s1"))]) :=
  (teardown_kernel_gone env_kernel_gone [session_demo] "/nb/"
    (.atom (.str "s1")) rfl rfl).1

/-- Claim C2: when a session matches the normalized path and its deletion
succeeds, exactly one session deletion and — if the content exists —
exactly one content deletion are performed, in that order and with the
removal warning logged in between, and the response is the 204 with empty
body; when the content does not exist, no content deletion is attempted
and the response is still the 204. -/
theorem teardown_matched_success (env : SessionEnv) (sessions : List JTree)
    (path : String) (sid : JTree)
    (hfind : find_session_id sessions (stripSlashes path) = .ok (some sid))
    (hok : env.delete_session_fails sid = false) :
    (env.file_exists path = true →
      BeakerLabSessionHandler.delete env sessions path
        = (.noContent204,
           [.session_delete sid, .content_exists_query path,
            .warn_deleting path, .content_delete path]))
    ∧ (env.file_exists path = false →
      BeakerLabSessionHandler.delete env sessions path
        = (.noContent204,
           [.session_delete sid, .content_exists_query path,
            .warn_not_exists path])) := by
  constructor <;> intro hex <;>
    simp [BeakerLabSessionHandler.delete, hfind, hok, hex]

/-- Witness for C2: matching session, successful deletion, content
present. -/
theorem teardown_matched_success_witness :
    BeakerLabSessionHandler.delete env_normal [session_demo] "/nb/"
      = (.noContent204,
         [.session_delete (.atom (.str "s1")), .content_exists_query "/nb/",
          .warn_deleting "/nb/", .content_delete "/nb/"]) :=
  (teardown_matched_success env_normal [session_demo] "/nb/"
    (.atom (.str "s1")) rfl rfl).1 rfl

/-- Claim C4: the target path is normalized by stripping leading and
trailing slashes and the selected session is the one whose nested
`notebook.path` equals the normalized path; the loop does not
short-circuit, so with several matches the last one in listing order
wins; with no match, no deletion of any kind is attempted and the
response is still the 204. -/
theorem teardown_session_selection (env : SessionEnv)
    (sessions : List JTree) (path : String) :
    ((∀ s ∈ sessions, ∃ v, get_from_dict s nbKeyPath = .ok v ∧
        treeEqStr v (stripSlashes path) = false) →
      BeakerLabSessionHandler.delete env sessions path = (.noContent204, []))
    ∧ (∀ pre s post i, sessions = pre ++ s :: post →
        (∀ t ∈ pre, ∃ v, get_from_dict t nbKeyPath = .ok v ∧
          (treeEqStr v (stripSlashes path) = true →
            ∃ j, getItemTree t "id" = .ok j)) →
        get_from_dict s nbKeyPath = .ok (.atom (.str (stripSlashes path))) →
        getItemTree s "id" = .ok i →
        (∀ t ∈ post, ∃ v, get_from_dict t nbKeyPath = .ok v ∧
          treeEqStr v (stripSlashes path) = false) →
        find_session_id sessions (stripSlashes path) = .ok (some i)) := by
  constructor
  · intro h
    have hf : find_session_id sessions (stripSlashes path) = .ok none :=
      foldl_sessions_skip_all h none
    simp [BeakerLabSessionHandler.delete, hf]
  · intro pre s post i hsplit hpre hs hid hpost
    subst hsplit
    unfold find_session_id
    rw [List.foldlM_append]
    obtain ⟨acc1, hacc1⟩ := foldl_sessions_total hpre none
    rw [hacc1, except_bind_ok, List.foldlM_cons]
    have hmatch :
        treeEqStr (.atom (.str (stripSlashes path))) (stripSlashes path)
          = true := by
      simp [treeEqStr]
    rw [sessionStep_hit hs hmatch hid, except_bind_ok]
    exact foldl_sessions_skip_all hpost (some i)

/-- Witness for C4: two sessions bound to the same path `nb`; the second
one (id `s2`) wins. -/
theorem teardown_session_selection_witness :
    find_session_id [session_demo, session_demo2] "nb"
      = .ok (some (.atom (.str "s2"))) :=
  (teardown_session_selection env_normal [session_demo, session_demo2]
      "/nb/").2
    [session_demo] session_demo2 [] (.atom (.str "s2")) rfl
    (by
      intro t ht
      rw [List.mem_singleton] at ht
      subst ht
      exact ⟨.atom (.str "nb"), rfl, fun _ => ⟨.atom (.str "s1"), rfl⟩⟩)
    rfl rfl
    (by intro t ht; simp at ht)

/-- Claim C10 (implicit): if a listed session record lacks the nested
`notebook` / `path` keys, the extraction raises `KeyError` outside the
guarded block, the request fails as a generic server error rather than
the 410, and no session deletion or content deletion was attempted. -/
theorem teardown_malformed_session (env : SessionEnv) (path : String)
    (pre post : List JTree) (s : JTree) (k : String)
    (hpre : ∀ t ∈ pre, ∃ v, get_from_dict t nbKeyPath = .ok v ∧
        (treeEqStr v (stripSlashes path) = true →
          ∃ j, getItemTree t "id" = .ok j))
    (herr : get_from_dict s nbKeyPath = .error (.keyError k)) :
    BeakerLabSessionHandler.delete env (pre ++ s :: post) path
      = (.serverError (.keyError k), [])
    ∧ (∀ st msg,
        (BeakerLabSessionHandler.delete env (pre ++ s :: post) path).1
          ≠ TeardownResult.httpError st msg) := by
  have hf : find_session_id (pre ++ s :: post) (stripSlashes path)
      = .error (.keyError k) := by
    unfold find_session_id
    rw [List.foldlM_append]
    obtain ⟨acc1, hacc1⟩ := foldl_sessions_total hpre none
    rw [hacc1, except_bind_ok, List.foldlM_cons, sessionStep_raises herr,
      except_bind_error]
  have h : BeakerLabSessionHandler.delete env (pre ++ s :: post) path
      = (.serverError (.keyError k), []) := by
    simp [BeakerLabSessionHandler.delete, hf]
  refine ⟨h, ?_⟩
  intro st msg
  rw [h]
  exact fun hc => TeardownResult.noConfusion hc

/-- Witness for C10: a session record without a `notebook` key. -/
theorem teardown_malformed_session_witness :
    BeakerLabSessionHandler.delete env_normal [session_no_nb] "/nb/"
      = (.serverError (.keyError "notebook"), []) :=
  (teardown_malformed_session env_normal "/nb/" [] [] session_no_nb
    "notebook" (by intro t ht; simp at ht) rfl).1

/-! ## Claims about `validate_model` and `sort_key` -/

theorem isEmpty_false_of_mem {α : Type} {a : α} {l : List α} (h : a ∈ l) :
    l.isEmpty = false := by
  cases l with
  | nil => simp at h
  | cons b bs => rfl

theorem hasKey_exists {model : Model} {k : String}
    (h : hasKey model k = true) : ∃ v, dictLookup model k = some v := by
  unfold hasKey at h
  cases hl : dictLookup model k with
  | none => rw [hl] at h; simp at h
  | some v => exact ⟨v, rfl⟩

/-- Claim C7: a model missing at least one of the eight required keys is
rejected with the missing-keys error, which names exactly the missing
set, for either value of `expect_content`. -/
theorem validate_model_missing (model : Model) (expect_content : Bool)
    (h : ∃ k ∈ required_keys, hasKey model k = false) :
    ∃ missing, validate_model model expect_content
        = .error (.missingModelKeys missing)
      ∧ ∀ k, k ∈ missing ↔ (k ∈ required_keys ∧ hasKey model k = false) := by
  refine ⟨required_keys.filter (fun k => ! hasKey model k), ?_, ?_⟩
  · have hne : (required_keys.filter (fun k => ! hasKey model k)).isEmpty
        = false := by
      obtain ⟨k, hk, hf⟩ := h
      exact isEmpty_false_of_mem (List.mem_filter.mpr ⟨hk, by simp [hf]⟩)
    simp [validate_model, hne]
  · intro k
    simp [List.mem_filter]

/-- Witness for C7: the empty model misses all eight keys. -/
theorem validate_model_missing_witness :
    ∃ missing, validate_model [] true = .error (.missingModelKeys missing)
      ∧ ∀ k, k ∈ missing
          ↔ (k ∈ required_keys ∧ hasKey ([] : Model) k = false) :=
  validate_model_missing [] true ⟨"name", by decide, rfl⟩

/-- Claim C8: on a model carrying all eight required keys,
`validate_model _ true` fails with the unexpectedly-None error naming
exactly the null entries among `content` / `format` whenever at least one
of them is null, and succeeds otherwise; `validate_model _ false` fails
with the unexpectedly-not-None error naming exactly the non-null entries
with their values whenever at least one is non-null, and succeeds when
both are null. -/
theorem validate_model_content_format (model : Model)
    (hall : ∀ k ∈ required_keys, hasKey model k = true) :
    ((isNull (dictGetD model "content" .null) = true ∨
        isNull (dictGetD model "format" .null) = true) →
      ∃ errs, validate_model model true = .error (.keysUnexpectedlyNone errs)
        ∧ ∀ k, k ∈ errs ↔ (k ∈ maybe_none_keys ∧
            isNull (dictGetD model k .null) = true))
    ∧ (isNull (dictGetD model "content" .null) = false →
       isNull (dictGetD model "format" .null) = false →
       validate_model model true = .ok ())
    ∧ ((isNull (dictGetD model "content" .null) = false ∨
        isNull (dictGetD model "format" .null) = false) →
      ∃ errs, validate_model model false
          = .error (.keysUnexpectedlyNotNone errs)
        ∧ ∀ k v, (k, v) ∈ errs ↔ (k ∈ maybe_none_keys ∧
            dictLookup model k = some v ∧ isNull v = false))
    ∧ (isNull (dictGetD model "content" .null) = true →
       isNull (dictGetD model "format" .null) = true →
       validate_model model false = .ok ()) := by
  have hmiss : required_keys.filter (fun k => ! hasKey model k) = [] :=
    List.filter_eq_nil_iff.mpr (fun k hk => by simp [hall k hk])
  obtain ⟨cv, hcv⟩ := hasKey_exists (hall "content" (by decide))
  obtain ⟨fv, hfv⟩ := hasKey_exists (hall "format" (by decide))
  have hgc : dictGetD model "content" .null = cv := by simp [dictGetD, hcv]
  have hgf : dictGetD model "format" .null = fv := by simp [dictGetD, hfv]
  refine ⟨?_, ?_, ?_, ?_⟩
  · intro hor
    refine ⟨maybe_none_keys.filter
        (fun k => isNull (dictGetD model k .null)), ?_, ?_⟩
    · have hne : (maybe_none_keys.filter
          (fun k => isNull (dictGetD model k .null))).isEmpty = false := by
        rcases hor with h1 | h1
        · have hmem : "content" ∈ maybe_none_keys.filter
              (fun k => isNull (dictGetD model k .null)) :=
            List.mem_filter.mpr ⟨by decide, by simp [h1]⟩
          exact isEmpty_false_of_mem hmem
        · have hmem : "format" ∈ maybe_none_keys.filter
              (fun k => isNull (dictGetD model k .null)) :=
            List.mem_filter.mpr ⟨by decide, by simp [h1]⟩
          exact isEmpty_false_of_mem hmem
      simp [validate_model, hmiss, hne]
    · intro k
      simp [List.mem_filter]
  · intro h1 h2
    simp [validate_model, hmiss, maybe_none_keys, h1, h2]
  · intro hor
    refine ⟨maybe_none_keys.filterMap (fun k =>
        match dictLookup model k with
        | some v => if isNull v then none else some (k, v)
        | none => none), ?_, ?_⟩
    · have hne : (maybe_none_keys.filterMap (fun k =>
          match dictLookup model k with
          | some v => if isNull v then none else some (k, v)
          | none => none)).isEmpty = false := by
        rcases hor with h1 | h1
        · rw [hgc] at h1
          have hmem : ("content", cv) ∈ maybe_none_keys.filterMap (fun k =>
              match dictLookup model k with
              | some v => if isNull v then none else some (k, v)
              | none => none) :=
            List.mem_filterMap.mpr ⟨"content", by decide, by simp [hcv, h1]⟩
          exact isEmpty_false_of_mem hmem
        · rw [hgf] at h1
          have hmem : ("format", fv) ∈ maybe_none_keys.filterMap (fun k =>
              match dictLookup model k with
              | some v => if isNull v then none else some (k, v)
              | none => none) :=
            List.mem_filterMap.mpr ⟨"format", by decide, by simp [hfv, h1]⟩
          exact isEmpty_false_of_mem hmem
      simp [validate_model, hmiss, hne]
    · intro k v
      rw [List.mem_filterMap]
      constructor
      · rintro ⟨a, ha, hfa⟩
        cases hla : dictLookup model a with
        | none => rw [hla] at hfa; simp at hfa
        | some w =>
          rw [hla] at hfa
          have hfa2 : (if isNull w = true then none else some (a, w))
              = some (k, v) := hfa
          cases hw : isNull w with
          | true => rw [hw] at hfa2; simp at hfa2
          | false =>
            rw [hw] at hfa2
            simp at hfa2
            obtain ⟨rfl, rfl⟩ := hfa2
            exact ⟨ha, hla, hw⟩
      · rintro ⟨hk, hlk, hnv⟩
        exact ⟨k, hk, by simp [hlk, hnv]⟩
  · intro h1 h2
    rw [hgc] at h1
    rw [hgf] at h2
    simp [validate_model, hmiss, maybe_none_keys, hcv, hfv, h1, h2]

/-- Witness for C8: the well-shaped model with both `content` and
`format` null passes `validate_model _ false`. -/
theorem validate_model_content_format_witness :
    validate_model demo_model false = .ok () :=
  (validate_model_content_format demo_model (by decide)).2.2.2 rfl rfl

/-- Claim C9: `sort_key` concatenates the type rank (`"0"` directory,
`"1"` notebook, `"2"` file, `"9"` anything else) with the lowercased
name, and sorting the spec's three example models by it yields the
directory `a`, then the notebook `Z`, then the file `B.txt`. -/
theorem sort_key_spec (model : Model) (nm : String) (tv : JValue)
    (hn : dictLookup model "name" = some (.str nm))
    (ht : dictLookup model "type" = some tv) :
    sort_key model = .ok (type_rank tv ++ pyLower nm)
    ∧ type_rank (.str "directory") = "0"
    ∧ type_rank (.str "notebook") = "1"
    ∧ type_rank (.str "file") = "2"
    ∧ (∀ v : JValue, v ≠ .str "directory" → v ≠ .str "notebook" →
        v ≠ .str "file" → type_rank v = "9")
    ∧ sort_models [model_file_B, model_dir_a, model_nb_Z]
        = [model_dir_a, model_nb_Z, model_file_B] := by
  refine ⟨?_, rfl, rfl, rfl, ?_, rfl⟩
  · simp [sort_key, getItemModel, hn, ht, except_bind_ok, except_pure]
  · intro v h1 h2 h3
    cases v with
    | null => rfl
    | bool b => rfl
    | num n => rfl
    | str s =>
      by_cases hd : s = "directory"
      · exact absurd (by rw [hd]) h1
      · by_cases hnb : s = "notebook"
        · exact absurd (by rw [hnb]) h2
        · by_cases hfl : s = "file"
          · exact absurd (by rw [hfl]) h3
          · simp [type_rank, hd, hnb, hfl]

/-- Witness for C9 at the directory model named `a`. -/
theorem sort_key_spec_witness :
    sort_key model_dir_a
      = .ok (type_rank (.str "directory") ++ pyLower "a") :=
  (sort_key_spec model_dir_a "a" (.str "directory") rfl rfl).1

end BeakerLab
